import Mathlib

/-!
# Verification of the qaie AI-assisted QA toolkit

Shallow embedding, in Lean 4, of the pure logic of the `qaie` repository
(JavaScript): the page-ready network heuristics (`scripts/page-utils.js`),
the shared LLM response parser (`src/providers/base.js`), provider
auto-detection (`src/providers/index.js`), the benchmark scorer
(`benchmarks/run.js`), the visual-regression comparator
(`visual-regression.js`), the viewport resolution of both capture paths,
the test-generation engine's provider call (`src/generate.js`), and the
ARIA reference table (`scripts/aria-snapshot.js`).

JavaScript strings are modelled as Lean `String` (the sources are ASCII, so
`length`, `toLower`, `trim` agree with their JS counterparts on all inputs
of interest).  Machine floats appear only in two rounding helpers
(`Number.prototype.toFixed`) and in `Math.ceil(n * 0.4)`; both are modelled
over `ℚ` with exact rounding, which coincides with the double-precision
computation for the magnitudes the program produces.  Platform builtins the
code relies on (`JSON.parse`, `new URL`, the DOM, `pixelmatch`) are
modelled as explicit Lean functions or oracle parameters, documented at
their definitions.
-/

set_option autoImplicit false

namespace Qaie

/-! ## String helpers (JS `String.prototype` operations) -/

/-- Whether `p` starts `l` (character lists). -/
def charListStartsWith : List Char → List Char → Bool
  | [], _ => true
  | _ :: _, [] => false
  | p :: ps, c :: cs => p == c && charListStartsWith ps cs

/-- Scanning worker for substring containment. -/
def strContainsAux (pat : List Char) : List Char → Bool
  | [] => charListStartsWith pat []
  | c :: cs => charListStartsWith pat (c :: cs) || strContainsAux pat cs

/-- JS `s.includes(pat)` : substring containment (empty pattern matches). -/
def strContains (s pat : String) : Bool :=
  strContainsAux pat.data s.data

/-- JS `s.toLowerCase()` (ASCII, which covers all strings the sources
compare). -/
def toLowerStr (s : String) : String := String.mk (s.data.map Char.toLower)

/-- JS `s.trim()` (ASCII whitespace). -/
def trimStr (s : String) : String :=
  String.mk ((s.data.dropWhile Char.isWhitespace).reverse.dropWhile
    Char.isWhitespace).reverse

/-- JS `s.startsWith(pre)`. -/
def startsWithStr (s pre : String) : Bool := charListStartsWith pre.data s.data

/-- JS `s.endsWith(suf)`. -/
def endsWithStr (s suf : String) : Bool :=
  charListStartsWith suf.data.reverse s.data.reverse

/-! ## `scripts/page-utils.js` — ignored domains and `shouldIgnoreRequest`

`shouldIgnoreRequest` delegates URL parsing to the platform's WHATWG
`new URL(...)` constructor.  That constructor is an external boundary
dependency; `parseURL` below models the fragment of its contract the
function uses: a string parses iff it has a syntactically valid scheme
followed by `:`; for special (http-family) schemes the authority is
parsed and the hostname extracted (userinfo and port stripped,
lowercased); other schemes (`data:` etc.) yield an empty hostname. -/

/-- Valid first character of a URL scheme. -/
def isSchemeStartChar (c : Char) : Bool := c.isAlpha

/-- Valid subsequent character of a URL scheme. -/
def isSchemeChar (c : Char) : Bool :=
  c.isAlpha || c.isDigit || c == '+' || c == '-' || c == '.'

/-- Split off the scheme: returns `(scheme, rest-after-colon)` or `none`
if the string has no valid `scheme:` prefix (the model of the WHATWG
parser's "missing scheme" failure, e.g. on `"not a url"`). -/
def splitScheme : List Char → List Char → Option (List Char × List Char)
  | _, [] => none
  | acc, c :: cs =>
    if c == ':' then
      if acc.isEmpty then none else some (acc.reverse, cs)
    else if (if acc.isEmpty then isSchemeStartChar c else isSchemeChar c) then
      splitScheme (c :: acc) cs
    else none

/-- Schemes the WHATWG URL standard treats as special (authority required). -/
def SPECIAL_SCHEMES : List String := ["http", "https", "ws", "wss", "ftp"]

/-- Parsed URL: the two components `shouldIgnoreRequest` reads. -/
structure UrlParts where
  protocol : String
  hostname : String
  deriving DecidableEq

/-- Drop the userinfo part (everything up to the last `@`) of an authority. -/
def dropUserinfo (auth : List Char) : List Char :=
  if auth.contains '@' then
    (auth.reverse.takeWhile (fun c => c != '@')).reverse
  else auth

/-- Model of the platform `new URL(s)`: `none` models the constructor
throwing `TypeError` on an unparsable string. -/
def parseURL (s : String) : Option UrlParts :=
  match splitScheme [] s.data with
  | none => none
  | some (sch, rest) =>
    let scheme := toLowerStr (String.mk sch)
    let special := SPECIAL_SCHEMES.contains scheme
    let rest' := if special then rest.dropWhile (fun c => c == '/') else rest
    if special || charListStartsWith ['/', '/'] rest then
      let auth := rest'.takeWhile (fun c => c != '/' && c != '?' && c != '#')
      let host := (dropUserinfo auth).takeWhile (fun c => c != ':')
      if host.isEmpty then
        if special then none
        else some ⟨scheme ++ ":", ""⟩
      else
        some ⟨scheme ++ ":", toLowerStr (String.mk host)⟩
    else
      some ⟨scheme ++ ":", ""⟩

/-- The fixed ad/tracking block-list of `scripts/page-utils.js`
(`IGNORED_DOMAINS`), verbatim. -/
def IGNORED_DOMAINS : List String :=
  [ "doubleclick.net"
  , "googlesyndication.com"
  , "googleadservices.com"
  , "google-analytics.com"
  , "googletagmanager.com"
  , "facebook.net"
  , "facebook.com/tr"
  , "hotjar.com"
  , "intercom.io"
  , "segment.io"
  , "segment.com"
  , "mixpanel.com"
  , "amplitude.com"
  , "sentry.io"
  , "newrelic.com"
  , "nr-data.net"
  , "fullstory.com"
  , "clarity.ms"
  , "bing.com/bat"
  , "ads.linkedin.com"
  , "analytics.twitter.com"
  , "px.ads.linkedin.com" ]

/-- Source `shouldIgnoreRequest(url)` from `scripts/page-utils.js`: `data:` URLs,
URLs over 2000 characters, hostnames containing a block-list entry, and
unparsable strings (the `catch` branch) are ignored.  Total, hence the
JS function's "never throws" is built in. -/
def shouldIgnoreRequest (url : String) : Bool :=
  match parseURL url with
  | none => true
  | some parsed =>
    if parsed.protocol == "data:" then true
    else if url.length > 2000 then true
    else IGNORED_DOMAINS.any (fun domain => strContains parsed.hostname domain)

/-! ## `scripts/page-utils.js` — `waitForPageReady`

The JS function attaches `request`/`response`/`requestfailed` listeners,
waits for `domcontentloaded`, then polls in a `while` loop using
`Date.now()`.  We model one session as a list of `RequestSpec` events on a
discrete millisecond clock starting at 0 (the structural-load wait is
modelled as already complete, which is the situation in the spec's
scenarios).  Listeners fire during every `await`, so the pending-request
map at time `now` is exactly the set of non-ignored requests started at or
before `now` whose response has not arrived by `now`. -/

/-- One network request of the simulated session: its URL, Playwright
resource type, the time its `request` event fires, and the time its
`response`/`requestfailed` event fires (`none` = never resolves). -/
structure RequestSpec where
  url : String
  resourceType : String
  start : Nat
  fin : Option Nat
  deriving DecidableEq

/-- Source `NON_CRITICAL_TYPES` from `scripts/page-utils.js`, verbatim. -/
def NON_CRITICAL_TYPES : List String := ["image", "font", "media", "stylesheet"]

/-- Contents of the `pendingRequests` map at time `now`. -/
def pendingAt (reqs : List RequestSpec) (now : Nat) : List RequestSpec :=
  reqs.filter (fun r =>
    !shouldIgnoreRequest r.url && decide (r.start ≤ now) &&
      (match r.fin with
       | none => true
       | some t => decide (now < t)))

/-- The `criticalPending` filter of the wait loop: non-critical resource
types are kept only while their elapsed time is below
`nonCriticalTimeout`; every other pending request always blocks. -/
def criticalPendingAt (reqs : List RequestSpec) (nonCriticalTimeout now : Nat) :
    List RequestSpec :=
  (pendingAt reqs now).filter (fun r =>
    if NON_CRITICAL_TYPES.contains r.resourceType then
      decide (now - r.start < nonCriticalTimeout)
    else true)

/-- The `while (Date.now() - startTime < timeout)` loop (start time 0).
Each iteration either breaks (returning the current clock), sleeps
`networkIdleTime` for the idle re-check, or sleeps 100 ms; the fuel is an
upper bound on iterations, never reached for `fuel ≥ timeout + 2`. -/
def waitLoop (reqs : List RequestSpec) (timeout networkIdleTime nonCriticalTimeout : Nat) :
    Nat → Nat → Nat
  | 0, now => now
  | fuel + 1, now =>
    if now < timeout then
      if (criticalPendingAt reqs nonCriticalTimeout now).isEmpty then
        let now2 := now + networkIdleTime
        if (criticalPendingAt reqs nonCriticalTimeout now2).isEmpty then now2
        else waitLoop reqs timeout networkIdleTime nonCriticalTimeout fuel (now2 + 100)
      else waitLoop reqs timeout networkIdleTime nonCriticalTimeout fuel (now + 100)
    else now

/-- Return value of `waitForPageReady`. -/
structure PageReadyResult where
  ready : Bool
  pendingRequests : List String
  loadTime : Nat
  deriving DecidableEq

/-- Source `waitForPageReady(page, {timeout, networkIdleTime, nonCriticalTimeout})`:
runs the wait loop, then reports `ready: remaining.length === 0` where
`remaining` is everything still in the `pendingRequests` map — including
non-critical requests that merely timed out of the blocking set.  Total
(the JS function never throws; timeouts are encoded in the result). -/
def waitForPageReady (reqs : List RequestSpec)
    (timeout networkIdleTime nonCriticalTimeout : Nat) : PageReadyResult :=
  let finalTime :=
    waitLoop reqs timeout networkIdleTime nonCriticalTimeout (timeout + 2) 0
  let remaining := (pendingAt reqs finalTime).map (fun r => r.url)
  ⟨remaining.isEmpty, remaining, finalTime⟩

/-! ## JSON values and a model of `JSON.parse`

`JSON.parse` is a platform builtin; `jsonParse` below models it: a
recursive-descent parser over the JSON grammar (numbers read exactly into
`ℚ`).  Parse failures carry a structured `JsonError` whose rendered
message — the model of the `SyntaxError.message` the JS code stores under
`parse_error` — is non-empty in every case. -/

/-- JSON values. -/
inductive Json where
  | null
  | bool (b : Bool)
  | num (q : ℚ)
  | str (s : String)
  | arr (elems : List Json)
  | obj (members : List (String × Json))

/-- Parse errors of the `JSON.parse` model. -/
inductive JsonError where
  | unexpectedEnd
  | unexpectedToken (c : Char)
  | trailingChars (c : Char)
  | badEscape
  | badControlChar
  | badNumber
  | badLiteral
  | fuelExhausted
  deriving DecidableEq

/-- Rendered error message (the JS `error.message`). -/
def JsonError.message : JsonError → String
  | .unexpectedEnd => "Unexpected end of JSON input"
  | .unexpectedToken c => "Unexpected token " ++ String.mk [c] ++ " in JSON"
  | .trailingChars c => "Unexpected token " ++ String.mk [c] ++ " after JSON value"
  | .badEscape => "Bad escaped character in JSON string"
  | .badControlChar => "Bad control character in JSON string literal"
  | .badNumber => "Malformed number in JSON"
  | .badLiteral => "Unexpected token in JSON literal"
  | .fuelExhausted => "JSON input too deeply nested"

/-- JSON insignificant whitespace. -/
def jsonWs (c : Char) : Bool :=
  c.toNat == 32 || c.toNat == 9 || c.toNat == 10 || c.toNat == 13

/-- Skip insignificant whitespace. -/
def skipJsonWs (l : List Char) : List Char := l.dropWhile jsonWs

/-- Hexadecimal digit value, for `\uXXXX` escapes. -/
def hexDigitVal (c : Char) : Option Nat :=
  if c.isDigit then some (c.toNat - 48)
  else
    let l := c.toLower
    if 'a' ≤ l && l ≤ 'f' then some (l.toNat - 87) else none

/-- JSON string body (after the opening quote), accumulating characters. -/
def parseJsonString (acc : List Char) : List Char → Except JsonError (String × List Char)
  | [] => .error .unexpectedEnd
  | '"' :: rest => .ok (String.mk acc.reverse, rest)
  | '\\' :: rest =>
    match rest with
    | '"' :: r => parseJsonString ('"' :: acc) r
    | '\\' :: r => parseJsonString ('\\' :: acc) r
    | '/' :: r => parseJsonString ('/' :: acc) r
    | 'b' :: r => parseJsonString ('\x08' :: acc) r
    | 'f' :: r => parseJsonString ('\x0c' :: acc) r
    | 'n' :: r => parseJsonString ('\n' :: acc) r
    | 'r' :: r => parseJsonString ('\r' :: acc) r
    | 't' :: r => parseJsonString ('\t' :: acc) r
    | 'u' :: h1 :: h2 :: h3 :: h4 :: r =>
      match hexDigitVal h1, hexDigitVal h2, hexDigitVal h3, hexDigitVal h4 with
      | some a, some b, some c, some d =>
        let n := ((a * 16 + b) * 16 + c) * 16 + d
        parseJsonString ((Char.ofNat n) :: acc) r
      | _, _, _, _ => .error .badEscape
    | _ => .error .badEscape
  | c :: rest =>
    if c.toNat < 32 then .error .badControlChar
    else parseJsonString (c :: acc) rest

/-- Read a maximal run of decimal digits as `(value, digitCount, rest)`. -/
def parseJsonDigits (value count : Nat) : List Char → (Nat × Nat × List Char)
  | [] => (value, count, [])
  | c :: rest =>
    if c.isDigit then parseJsonDigits (value * 10 + (c.toNat - '0'.toNat)) (count + 1) rest
    else (value, count, c :: rest)

/-- JSON number starting at the current position (sign already peeked by
the caller's dispatch; handled here in full). -/
def parseJsonNumber (l : List Char) : Except JsonError (ℚ × List Char) :=
  let (neg, l1) := match l with
    | '-' :: r => (true, r)
    | _ => (false, l)
  let (intPart, intCount, l2) := parseJsonDigits 0 0 l1
  if intCount == 0 then .error .badNumber
  else
    let (fracNum, fracCount, l3) := match l2 with
      | '.' :: r => parseJsonDigits 0 0 r
      | _ => (0, 0, l2)
    if (match l2 with | '.' :: _ => fracCount == 0 | _ => false) then .error .badNumber
    else
      let (expNeg, l4) := match l3 with
        | 'e' :: '-' :: r => (true, (some r : Option (List Char)))
        | 'E' :: '-' :: r => (true, some r)
        | 'e' :: '+' :: r => (false, some r)
        | 'E' :: '+' :: r => (false, some r)
        | 'e' :: r => (false, some r)
        | 'E' :: r => (false, some r)
        | _ => (false, none)
      match l4 with
      | none =>
        let mag : ℚ := (intPart : ℚ) + (fracNum : ℚ) / (10 : ℚ) ^ fracCount
        .ok (if neg then -mag else mag, l3)
      | some r =>
        let (expPart, expCount, l5) := parseJsonDigits 0 0 r
        if expCount == 0 then .error .badNumber
        else
          let base : ℚ := (intPart : ℚ) + (fracNum : ℚ) / (10 : ℚ) ^ fracCount
          let scaled : ℚ :=
            if expNeg then base / (10 : ℚ) ^ expPart else base * (10 : ℚ) ^ expPart
          .ok (if neg then -scaled else scaled, l5)

mutual

/-- JSON value (fuel-indexed recursive descent). -/
def parseJsonValue : Nat → List Char → Except JsonError (Json × List Char)
  | 0, _ => .error .fuelExhausted
  | fuel + 1, l =>
    match skipJsonWs l with
    | [] => .error .unexpectedEnd
    | c :: cs =>
      if c == '\x7b' then parseJsonMembers fuel [] cs
      else if c == '[' then parseJsonElems fuel [] cs
      else if c == '"' then
        match parseJsonString [] cs with
        | .error e => .error e
        | .ok (s, rest) => .ok (.str s, rest)
      else if c == 't' then
        if charListStartsWith ['r', 'u', 'e'] cs then .ok (.bool true, cs.drop 3)
        else .error .badLiteral
      else if c == 'f' then
        if charListStartsWith ['a', 'l', 's', 'e'] cs then .ok (.bool false, cs.drop 4)
        else .error .badLiteral
      else if c == 'n' then
        if charListStartsWith ['u', 'l', 'l'] cs then .ok (.null, cs.drop 3)
        else .error .badLiteral
      else if c == '-' || c.isDigit then
        match parseJsonNumber (c :: cs) with
        | .error e => .error e
        | .ok (q, rest) => .ok (.num q, rest)
      else .error (.unexpectedToken c)

/-- Object members after `{`, accumulating parsed pairs. -/
def parseJsonMembers : Nat → List (String × Json) → List Char →
    Except JsonError (Json × List Char)
  | 0, _, _ => .error .fuelExhausted
  | fuel + 1, acc, l =>
    match skipJsonWs l with
    | [] => .error .unexpectedEnd
    | c :: cs =>
      if c == '\x7d' && acc.isEmpty then .ok (.obj [], cs)
      else if c == '"' then
        match parseJsonString [] cs with
        | .error e => .error e
        | .ok (key, rest) =>
          match skipJsonWs rest with
          | ':' :: rest2 =>
            match parseJsonValue fuel rest2 with
            | .error e => .error e
            | .ok (v, rest3) =>
              match skipJsonWs rest3 with
              | ',' :: rest4 => parseJsonMembers fuel (acc ++ [(key, v)]) rest4
              | '\x7d' :: rest4 => .ok (.obj (acc ++ [(key, v)]), rest4)
              | [] => .error .unexpectedEnd
              | c2 :: _ => .error (.unexpectedToken c2)
          | [] => .error .unexpectedEnd
          | c2 :: _ => .error (.unexpectedToken c2)
      else .error (.unexpectedToken c)

/-- Array elements after `[`, accumulating parsed values. -/
def parseJsonElems : Nat → List Json → List Char → Except JsonError (Json × List Char)
  | 0, _, _ => .error .fuelExhausted
  | fuel + 1, acc, l =>
    match skipJsonWs l with
    | [] => .error .unexpectedEnd
    | c :: cs =>
      if c == ']' && acc.isEmpty then .ok (.arr [], cs)
      else
        match parseJsonValue fuel (c :: cs) with
        | .error e => .error e
        | .ok (v, rest) =>
          match skipJsonWs rest with
          | ',' :: rest2 => parseJsonElems fuel (acc ++ [v]) rest2
          | ']' :: rest2 => .ok (.arr (acc ++ [v]), rest2)
          | [] => .error .unexpectedEnd
          | c2 :: _ => .error (.unexpectedToken c2)

end

/-- Model of `JSON.parse(s)`: parse one value, then require only
whitespace to follow. -/
def jsonParse (s : String) : Except JsonError Json :=
  match parseJsonValue (s.length + 1) s.data with
  | .error e => .error e
  | .ok (v, rest) =>
    match skipJsonWs rest with
    | [] => .ok v
    | c :: _ => .error (.trailingChars c)

/-! ## `src/providers/base.js` — `parseResponse`

The JS method trims the response; if the trimmed text starts with three
backticks it applies `.replace(/```json?\n?/g, '').replace(/```\n?$/g, '')`
and then `JSON.parse`s the result, returning a fixed fallback object on any
parse failure.  Note the first regex's `?` quantifies only the final `n`:
it matches occurrences of six backtick-j-s-o characters (plus an optional
`n` and an optional newline) anywhere in the string — a bare triple-backtick
fence is *not* matched by it. -/

/-- Global replacement model of `.replace(/```json?\n?/g, '')`: scan left to
right; whenever the next characters are backtick-backtick-backtick-j-s-o,
consume them plus an optional `n` plus an optional newline (greedy, like
the regex) and emit nothing; otherwise emit one character and advance. -/
def stripFenceGlobal : List Char → List Char
  | [] => []
  | '`' :: '`' :: '`' :: 'j' :: 's' :: 'o' :: 'n' :: '\n' :: rest => stripFenceGlobal rest
  | '`' :: '`' :: '`' :: 'j' :: 's' :: 'o' :: 'n' :: rest => stripFenceGlobal rest
  | '`' :: '`' :: '`' :: 'j' :: 's' :: 'o' :: '\n' :: rest => stripFenceGlobal rest
  | '`' :: '`' :: '`' :: 'j' :: 's' :: 'o' :: rest => stripFenceGlobal rest
  | c :: rest => c :: stripFenceGlobal rest

/-- Model of `.replace(/```\n?$/g, '')`: the pattern is anchored at the end
of the string, so it removes one trailing triple-backtick fence, preferring
(leftmost match) the four-character suffix with the trailing newline. -/
def stripTrailingFence (l : List Char) : List Char :=
  let r := l.reverse
  if charListStartsWith ['\n', '`', '`', '`'] r then (r.drop 4).reverse
  else if charListStartsWith ['`', '`', '`'] r then (r.drop 3).reverse
  else l

/-- The preprocessing `parseResponse` applies before `JSON.parse`: trim,
then — only when the trimmed text starts with a triple backtick — the two
global regex replacements. -/
def stripResponse (response : String) : String :=
  let jsonStr := trimStr response
  if startsWithStr jsonStr "```" then
    String.mk (stripTrailingFence (stripFenceGlobal jsonStr.data))
  else jsonStr

/-- The fallback object `parseResponse` returns from its `catch` block. -/
def parseFailureResult (response : String) (err : JsonError) : Json :=
  .obj
    [ ("summary", .str "Failed to parse LLM response")
    , ("bugs", .arr [])
    , ("score", .null)
    , ("recommendations", .arr [])
    , ("raw_response", .str response)
    , ("parse_error", .str err.message) ]

/-- Source `parseResponse(response)` of `BaseProvider` (`src/providers/base.js`):
on success the parsed JSON value is returned as-is; on failure the fixed
fallback object.  Total — the JS `try`/`catch` guarantees no exception
escapes. -/
def parseResponse (response : String) : Json :=
  match jsonParse (stripResponse response) with
  | .ok v => v
  | .error e => parseFailureResult response e

/-- Modelled from the spec: the stripping the specification describes —
"strips a leading/trailing fenced-code-block wrapper if present" — i.e.
removal of the leading fence line (three backticks plus an optional
language tag up to the end of its line) and of one trailing
triple-backtick fence.  Used only to compare the spec's description with
the code's actual stripping. -/
def stripSpecWrapper (s : String) : String :=
  if startsWithStr s "```" then
    let afterTag := (s.data.drop 3).dropWhile (fun c => c != '\n')
    let body := match afterTag with
      | '\n' :: r => r
      | r => r
    String.mk (stripTrailingFence body)
  else s

/-! ## `benchmarks/run.js` — `matchDescription` and `scoreResult`

Absent/`undefined` string fields are modelled as `""`, which coincides
with JS truthiness for every `x || y` / `!x` the scorer performs on them.
`review.issues` being absent or not an array is modelled as `none`. -/

/-- An issue reported by the provider, as the scorer reads it. -/
structure BenchIssue where
  description : String
  message : String
  category : String
  severity : String
  deriving DecidableEq

/-- One entry of a benchmark case's `expectedIssues`. -/
structure ExpectedIssue where
  description : String
  category : String
  severity : String
  deriving DecidableEq

/-- A provider review as the scorer reads it (`none` = no `issues` array). -/
structure BenchReview where
  issues : Option (List BenchIssue)
  deriving DecidableEq

/-- Return value of `scoreResult`. -/
structure BenchScore where
  detected : Bool
  falsePositives : Nat
  deriving DecidableEq

/-- Separator class of the split regex `/[\s,/]+/`. -/
def isSepChar (c : Char) : Bool := c.isWhitespace || c == ',' || c == '/'

/-- Split into maximal runs of non-separator characters.  JS `split` also
yields empty strings at the edges, but those are removed by the
`length > 3` filter that always follows, so they are dropped here. -/
def splitWordsAux (acc : List Char) : List Char → List String
  | [] => if acc.isEmpty then [] else [String.mk acc.reverse]
  | c :: cs =>
    if isSepChar c then
      if acc.isEmpty then splitWordsAux [] cs
      else String.mk acc.reverse :: splitWordsAux [] cs
    else splitWordsAux (c :: acc) cs

/-- The keyword extraction of `matchDescription`: lowercase, split on
whitespace/comma/slash, keep words strictly longer than 3 characters. -/
def keywords (expected : String) : List String :=
  (splitWordsAux [] (toLowerStr expected).data).filter (fun w => decide (w.length > 3))

/-- JS `Math.ceil(n * 0.4)`, exactly (equal to the JS double computation for
every `n` below 2⁵⁰). -/
def matchThreshold (n : Nat) : Nat := (2 * n + 4) / 5

/-- Source `matchDescription(actual, expected)` from `benchmarks/run.js`. -/
def matchDescription (actual expected : String) : Bool :=
  let kws := keywords expected
  let normalised := toLowerStr actual
  let hits := kws.filter (fun kw => strContains normalised kw)
  decide (hits.length ≥ matchThreshold kws.length)

/-- JS `issue.description || issue.message || ''`. -/
def effectiveDescription (issue : BenchIssue) : String :=
  if issue.description != "" then issue.description else issue.message

/-- The per-issue/per-expectation match of `scoreResult`'s inner `some`. -/
def issueMatches (issue : BenchIssue) (exp : ExpectedIssue) : Bool :=
  let descMatch := matchDescription (effectiveDescription issue) exp.description
  let catMatch :=
    exp.category == "" || strContains (toLowerStr issue.category) (toLowerStr exp.category)
  let sevMatch :=
    exp.severity == "" || strContains (toLowerStr issue.severity) (toLowerStr exp.severity)
  descMatch || (catMatch && sevMatch)

/-- Source `scoreResult(review, expected)` from `benchmarks/run.js`.  The
`Math.max(0, issues.length - expected.length)` false-positive count is
Nat truncated subtraction. -/
def scoreResult (review : Option BenchReview) (expected : List ExpectedIssue) :
    BenchScore :=
  match review with
  | none => ⟨false, 0⟩
  | some r =>
    match r.issues with
    | none => ⟨false, 0⟩
    | some issues =>
      ⟨expected.all (fun exp => issues.any (fun issue => issueMatches issue exp)),
        issues.length - expected.length⟩

/-! ## `visual-regression.js` — `compareImages` and `compareDirectories`

PNG decoding and the perceptual diff are external boundary dependencies
(`pngjs`, `pixelmatch`); an image is modelled by its dimensions and an
abstract decoded buffer, and `pixelmatch` (with the fixed option set the
code passes) by an oracle parameter invoked only on equal-dimension
images.  `Number.prototype.toFixed` rounding is modelled exactly over
`ℚ`. -/

/-- A decoded PNG: dimensions plus abstract pixel buffer. -/
structure PngImage where
  width : Nat
  height : Nat
  data : List Nat
  deriving DecidableEq

/-- Oracle for the external `pixelmatch` library: number of differing
pixels between two equal-dimension buffers. -/
abbrev PixelMatchAlg := PngImage → PngImage → Nat

/-- JS `parseFloat(q.toFixed(digits))`: round half-up to `digits` decimals
(exact for the magnitudes this program produces). -/
def roundTo (digits : Nat) (q : ℚ) : ℚ :=
  let p : ℚ := (10 : ℚ) ^ digits
  (⌊q * p + 1 / 2⌋ : ℚ) / p

/-- Return value of `compareImages` (field `match` renamed `isMatch`;
`diffPixels` is `-1` on dimension mismatch, as in the source). -/
structure ImageCompareResult where
  isMatch : Bool
  error : Option String
  diffPixels : Int
  diffPercent : ℚ
  deriving DecidableEq

/-- Source `compareImages(baselinePath, currentPath, ...)` after decoding: on a
dimension mismatch it returns the fixed mismatch record without invoking
the pixel diff; otherwise it runs `pixelmatch` and reports the rounded
percentage. -/
def compareImages (pixelmatch : PixelMatchAlg) (baseline current : PngImage) :
    ImageCompareResult :=
  if baseline.width != current.width || baseline.height != current.height then
    ⟨false, some "dimension_mismatch", -1, 100⟩
  else
    let diffPixels := pixelmatch baseline current
    let totalPixels := baseline.width * baseline.height
    let diffPercent := roundTo 2 ((diffPixels : ℚ) / (totalPixels : ℚ) * 100)
    ⟨diffPixels == 0, none, (diffPixels : Int), diffPercent⟩

/-- A directory of decoded screenshots: `(filename, image)` pairs. -/
abbrev ScreenshotDir := List (String × PngImage)

/-- A concrete pixel-diff instantiation (count of differing buffer
entries), used to evaluate the comparator on concrete inputs; the
theorems below hold for every `PixelMatchAlg`. -/
def samplePixelAlg : PixelMatchAlg := fun a b =>
  (a.data.zip b.data).countP (fun entry => entry.1 != entry.2)

/-- JS `fs.existsSync` + decode for one name in a directory. -/
def lookupImage (dir : ScreenshotDir) (file : String) : Option PngImage :=
  (dir.find? (fun entry => entry.1 == file)).map (fun entry => entry.2)

/-- Per-file outcome of `compareDirectories` (diagnostic message text
elided; the status string and numeric fields are kept). -/
structure FileCompareResult where
  file : String
  status : String
  diffPixels : Option Int
  diffPercent : Option ℚ
  deriving DecidableEq

/-- The loop body of `compareDirectories` for one filename of the union. -/
def classifyFile (pixelmatch : PixelMatchAlg) (baseline current : ScreenshotDir)
    (failThreshold : ℚ) (file : String) : FileCompareResult :=
  match lookupImage baseline file with
  | none => ⟨file, "new", none, none⟩
  | some b =>
    match lookupImage current file with
    | none => ⟨file, "missing", none, none⟩
    | some c =>
      let comparison := compareImages pixelmatch b c
      if comparison.error == some "dimension_mismatch" then
        ⟨file, "failed", none, none⟩
      else if comparison.diffPercent > failThreshold then
        ⟨file, "failed", some comparison.diffPixels, some comparison.diffPercent⟩
      else if comparison.diffPixels > 0 then
        ⟨file, "warning", some comparison.diffPixels, some comparison.diffPercent⟩
      else
        ⟨file, "passed", none, some 0⟩

/-- The union of `.png` filenames of both directories, in first-occurrence
order (the JS `Set` iterates insertion order). -/
def pngUnion (baseline current : ScreenshotDir) : List String :=
  ((baseline.map Prod.fst).filter (fun f => endsWithStr f ".png") ++
    (current.map Prod.fst).filter (fun f => endsWithStr f ".png")).eraseDups

/-- Aggregated counters of `compareDirectories`. -/
structure DirSummary where
  total : Nat
  passed : Nat
  failed : Nat
  missing : Nat
  new : Nat
  passRate : ℚ
  deriving DecidableEq

/-- Return value of `compareDirectories`. -/
structure DirCompareResult where
  summary : DirSummary
  results : List FileCompareResult
  deriving DecidableEq

/-- Source `compareDirectories(baselineDir, currentDir, diffDir, {threshold,
failThreshold})`: classify every union filename and aggregate.  The JS
`passed` counter is incremented on both the `passed` and the `warning`
branch. -/
def compareDirectories (pixelmatch : PixelMatchAlg) (baseline current : ScreenshotDir)
    (failThreshold : ℚ) : DirCompareResult :=
  let files := pngUnion baseline current
  let results := files.map (classifyFile pixelmatch baseline current failThreshold)
  let passed := (results.filter (fun r => r.status == "passed" || r.status == "warning")).length
  let failed := (results.filter (fun r => r.status == "failed")).length
  let missing := (results.filter (fun r => r.status == "missing")).length
  let newCount := (results.filter (fun r => r.status == "new")).length
  let passRate : ℚ :=
    if files.length > 0 then roundTo 1 ((passed : ℚ) / (files.length : ℚ) * 100)
    else 100
  ⟨⟨files.length, passed, failed, missing, newCount, passRate⟩, results⟩

/-! ## Viewport resolution of the two capture implementations

`capturePage` (the CLI, disk-oriented capture) resolves viewport names via
`VIEWPORTS[viewportName]` — an exact, case-sensitive lookup; unknown names
are skipped with a warning.  `capturePageData` (`src/analyze.js`, the
library capture) resolves via `VIEWPORT_CONFIGS[viewportName.toLowerCase()]`.
Only the viewport-resolution part of each loop is modelled; navigation,
waiting and the actual screenshotting are browser-engine effects that do
not influence which viewports are produced. -/

/-- A width/height pair. -/
structure ViewportSize where
  width : Nat
  height : Nat
  deriving DecidableEq

/-- The `VIEWPORTS` constant of the CLI capture module. -/
def VIEWPORTS : List (String × ViewportSize) :=
  [("desktop", ⟨1920, 1080⟩), ("tablet", ⟨768, 1024⟩), ("mobile", ⟨375, 667⟩)]

/-- A screenshot record of the CLI capture path (path/buffer elided). -/
structure CliScreenshot where
  viewport : String
  width : Nat
  height : Nat
  deriving DecidableEq

/-- The screenshot list `capturePage` produces for a viewport-name list:
exact lookup in `VIEWPORTS`, unknown names skipped (warn, `continue`).
Total, so the loop never raises on bad names. -/
def capturePageScreenshots (viewports : List String) : List CliScreenshot :=
  viewports.filterMap (fun viewportName =>
    (VIEWPORTS.find? (fun entry => entry.1 == viewportName)).map
      (fun entry => ⟨viewportName, entry.2.width, entry.2.height⟩))

/-- A `ViewportConfig` of `src/analyze.js`. -/
structure ViewportConfig where
  width : Nat
  height : Nat
  name : String
  deriving DecidableEq

/-- The `VIEWPORT_CONFIGS` constant of `src/analyze.js`. -/
def VIEWPORT_CONFIGS : List (String × ViewportConfig) :=
  [ ("mobile", ⟨375, 667, "mobile"⟩)
  , ("tablet", ⟨768, 1024, "tablet"⟩)
  , ("desktop", ⟨1920, 1080, "desktop"⟩) ]

/-- A screenshot record of the library capture path (buffer elided). -/
structure LibScreenshot where
  name : String
  viewport : String
  width : Nat
  height : Nat
  deriving DecidableEq

/-- The screenshot list `capturePageData` produces: lowercased lookup in
`VIEWPORT_CONFIGS`, unknown names skipped (warn, `continue`).  Total. -/
def capturePageDataScreenshots (viewports : List String) : List LibScreenshot :=
  viewports.filterMap (fun viewportName =>
    (VIEWPORT_CONFIGS.find? (fun entry => entry.1 == toLowerStr viewportName)).map
      (fun entry =>
        ⟨entry.2.name ++ "-" ++ toString entry.2.width ++ "x" ++ toString entry.2.height,
          entry.2.name, entry.2.width, entry.2.height⟩))

/-! ## Provider selection — `src/providers/index.js`

`process.env` is modelled as an association list; JS truthiness on an env
value (`undefined` and `""` are falsy) is `envTruthy`.  The repository
carries two versions of the detection logic: the live module
`src/providers/index.js`, which reads only the `INPUT_`-prefixed (CI)
variable names, and a historical copy (bundled alongside
`src/providers/openai.js`) that reads each plain name first and falls back
to the `INPUT_` form.  Both are embedded, in namespaces `ProvidersIndex`
and `ProvidersCompat` respectively. -/

/-- An environment snapshot. -/
abbrev Env := List (String × String)

/-- Raw lookup, `process.env[k]`. -/
def envGet (env : Env) (k : String) : Option String :=
  (env.find? (fun entry => entry.1 == k)).map (fun entry => entry.2)

/-- Truthy lookup: `undefined` and the empty string are falsy. -/
def envTruthy (env : Env) (k : String) : Option String :=
  match envGet env k with
  | some v => if v == "" then none else some v
  | none => none

/-- JS `a || b` over truthy env reads. -/
def envOr (env : Env) (k1 k2 : String) : Option String :=
  match envTruthy env k1 with
  | some v => some v
  | none => envTruthy env k2

/-- Options attached to a detected provider. -/
structure ProviderOptions where
  model : Option String
  baseUrl : Option String
  deriving DecidableEq

/-- Result of `detectProvider`. -/
structure DetectedProvider where
  provider : String
  apiKey : Option String
  options : ProviderOptions
  deriving DecidableEq

/-- The keys of the `PROVIDERS` map (`anthropic`, `openai`, `codex` as an
alias of the OpenAI class, `gemini`, `ollama`). -/
def PROVIDER_NAMES : List String := ["anthropic", "openai", "codex", "gemini", "ollama"]

namespace ProvidersIndex

/-- Source `detectProvider()` of the live `src/providers/index.js`: reads only the
`INPUT_`-prefixed variable names, first match wins. -/
def detectProvider (env : Env) : Option DetectedProvider :=
  match envTruthy env "INPUT_PROVIDER", envTruthy env "INPUT_API_KEY" with
  | some provider, some apiKey => some ⟨toLowerStr provider, some apiKey, ⟨none, none⟩⟩
  | _, _ =>
    match envTruthy env "INPUT_ANTHROPIC_API_KEY" with
    | some k => some ⟨"anthropic", some k, ⟨none, none⟩⟩
    | none =>
      match envTruthy env "INPUT_OPENAI_API_KEY" with
      | some k => some ⟨"openai", some k, ⟨none, none⟩⟩
      | none =>
        match envTruthy env "INPUT_CODEX_API_KEY" with
        | some k => some ⟨"codex", some k, ⟨some "codex-mini-latest", none⟩⟩
        | none =>
          match envTruthy env "INPUT_GEMINI_API_KEY" with
          | some k => some ⟨"gemini", some k, ⟨none, none⟩⟩
          | none =>
            if envGet env "INPUT_PROVIDER" == some "ollama" then
              some ⟨"ollama", none,
                ⟨some ((envTruthy env "INPUT_OLLAMA_MODEL").getD "llava"),
                  some ((envTruthy env "INPUT_OLLAMA_BASE_URL").getD "http://localhost:11434")⟩⟩
            else none

/-- Source `createProvider`'s name check: unknown names throw the `Unknown
provider` error; a known name constructs the class (represented by its
lowercased key). -/
def createProvider (providerName : String) : Except String String :=
  if PROVIDER_NAMES.contains (toLowerStr providerName) then .ok (toLowerStr providerName)
  else
    .error ("Unknown provider: " ++ providerName ++
      ". Supported: anthropic, openai, codex, gemini, ollama")

/-- Source `getProvider()` of the live module: auto-detect, throwing the fixed
configuration error when nothing matches. -/
def getProvider (env : Env) : Except String DetectedProvider :=
  match detectProvider env with
  | none =>
    .error ("No API key provided. Set one of: INPUT_ANTHROPIC_API_KEY, " ++
      "INPUT_OPENAI_API_KEY, INPUT_CODEX_API_KEY, INPUT_GEMINI_API_KEY, " ++
      "or INPUT_PROVIDER with INPUT_API_KEY")
  | some detected =>
    match createProvider detected.provider with
    | .ok _ => .ok detected
    | .error e => .error e

end ProvidersIndex

namespace ProvidersCompat

/-- Source `detectProvider()` of the historical copy (bundled with
`src/providers/openai.js`): each variable is read under its plain name
first, then the `INPUT_`-prefixed form. -/
def detectProvider (env : Env) : Option DetectedProvider :=
  let provider := envOr env "PROVIDER" "INPUT_PROVIDER"
  let apiKey := envOr env "API_KEY" "INPUT_API_KEY"
  match provider, apiKey with
  | some p, some k => some ⟨toLowerStr p, some k, ⟨none, none⟩⟩
  | _, _ =>
    match envOr env "ANTHROPIC_API_KEY" "INPUT_ANTHROPIC_API_KEY" with
    | some k => some ⟨"anthropic", some k, ⟨none, none⟩⟩
    | none =>
      match envOr env "OPENAI_API_KEY" "INPUT_OPENAI_API_KEY" with
      | some k => some ⟨"openai", some k, ⟨none, none⟩⟩
      | none =>
        match envOr env "CODEX_API_KEY" "INPUT_CODEX_API_KEY" with
        | some k => some ⟨"codex", some k, ⟨some "codex-mini-latest", none⟩⟩
        | none =>
          match envOr env "GEMINI_API_KEY" "INPUT_GEMINI_API_KEY" with
          | some k => some ⟨"gemini", some k, ⟨none, none⟩⟩
          | none =>
            if provider == some "ollama" then
              some ⟨"ollama", none,
                ⟨some ((envOr env "OLLAMA_MODEL" "INPUT_OLLAMA_MODEL").getD "llava"),
                  some ((envOr env "OLLAMA_BASE_URL" "INPUT_OLLAMA_BASE_URL").getD
                    "http://localhost:11434")⟩⟩
            else none

/-- Source `getProvider()` of the historical copy (plain-name error message). -/
def getProvider (env : Env) : Except String DetectedProvider :=
  match detectProvider env with
  | none =>
    .error ("No API key provided. Set one of: ANTHROPIC_API_KEY, OPENAI_API_KEY, " ++
      "CODEX_API_KEY, GEMINI_API_KEY, or PROVIDER with API_KEY")
  | some detected => .ok detected

end ProvidersCompat

/-! ## `src/generate.js` — the provider call of both generation modes

Both `generateE2ETests` and `generateUnitTests` execute
`await provider.generateTests(prompt)`.  A provider instance's callable
surface is its class's own methods plus the `BaseProvider` prototype; JS
throws `TypeError: ... is not a function` when the property is absent.
The method lists below are read off the class declarations. -/

/-- Methods declared on `BaseProvider` (`src/providers/base.js`). -/
def baseProviderMethods : List String :=
  ["constructor", "analyze", "reviewCode", "buildPrompt", "parseResponse",
    "buildReviewPrompt"]

/-- Own methods of `AnthropicProvider` (constructor and `analyze`). -/
def anthropicOwnMethods : List String := ["constructor", "analyze"]

/-- Own methods of `OpenAIProvider` (also used for the `codex` alias). -/
def openaiOwnMethods : List String := ["constructor", "analyze", "reviewCode"]

/-- Own methods of `GeminiProvider`. -/
def geminiOwnMethods : List String := ["constructor", "analyze", "reviewCode"]

/-- Own methods of `OllamaProvider` (constructor and `analyze`). -/
def ollamaOwnMethods : List String := ["constructor", "analyze"]

/-- The `PROVIDERS` map of `src/providers/index.js`, each class represented
by its callable method surface. -/
def PROVIDER_CLASSES : List (String × List String) :=
  [ ("anthropic", anthropicOwnMethods)
  , ("openai", openaiOwnMethods)
  , ("codex", openaiOwnMethods)
  , ("gemini", geminiOwnMethods)
  , ("ollama", ollamaOwnMethods) ]

/-- Method resolution along the prototype chain. -/
def hasMethod (ownMethods : List String) (name : String) : Bool :=
  ownMethods.contains name || baseProviderMethods.contains name

/-- JS method invocation `provider.<name>(...)`: a missing method is a
thrown `TypeError`. -/
def callProviderMethod (ownMethods : List String) (name : String) : Except String Unit :=
  if hasMethod ownMethods name then .ok ()
  else .error ("TypeError: provider." ++ name ++ " is not a function")

/-- The provider step both generation modes reach after crawling /
reading sources and building the prompt:
`const result = await provider.generateTests(prompt)`.  On success the
run would carry the raw model text onward to `parseGeneratedFiles`; an
error aborts the run before any file is produced. -/
def generationProviderStep (ownMethods : List String) (rawModelText : String) :
    Except String String :=
  (callProviderMethod ownMethods "generateTests").map (fun _ => rawModelText)

/-! ## `scripts/aria-snapshot.js` — reference table, snapshots, `clickByRef`

The in-page snapshot script walks the element tree depth-first; hidden
elements are pruned with their subtrees; an element gets a reference iff
`shouldHaveRef` accepts it, and `getRef` first searches the page-lifetime
`window.__qaRefs` table by element identity before minting
`'e' + (++refCounter)` (the counter restarts at 0 on every evaluation;
the table persists).  Element identity is modelled by a numeric id; the
emitted snapshot text does not influence reference assignment and is not
modelled — `refTargets` reproduces exactly the sequence of `getRef` calls
`buildSnapshot` performs. -/

/-- The attributes of one DOM element that the snapshot script reads. -/
structure ElemInfo where
  id : Nat
  tagName : String
  roleAttr : Option String
  hasHref : Bool
  inputType : String
  multiple : Bool
  ariaLabel : Option String
  ariaLabelledby : Option String
  onclick : Bool
  tabIndex : Int
  hiddenAttr : Bool
  ariaHiddenTrue : Bool
  displayNone : Bool
  visibilityHidden : Bool
  deriving DecidableEq

/-- A DOM element tree. -/
inductive DomElem where
  | node (info : ElemInfo) (children : List DomElem)

/-- Source `INTERACTIVE_ROLES` of the snapshot script, verbatim. -/
def INTERACTIVE_ROLES : List String :=
  [ "button", "link", "textbox", "checkbox", "radio", "combobox"
  , "listbox", "option", "menuitem", "tab", "switch", "slider"
  , "spinbutton", "searchbox", "menu", "menubar", "dialog"
  , "alertdialog", "listitem", "treeitem", "gridcell", "row"
  , "columnheader", "rowheader" ]

/-- Source `INTERACTIVE_TAGS` of the snapshot script, verbatim. -/
def INTERACTIVE_TAGS : List String :=
  ["A", "BUTTON", "INPUT", "SELECT", "TEXTAREA", "DETAILS", "SUMMARY"]

/-- The `INPUT` branch of `getRole` (`el.type || 'text'` handled by the
caller). -/
def inputRole (type_ : String) : String :=
  if type_ == "button" || type_ == "submit" || type_ == "reset" || type_ == "image" then
    "button"
  else if type_ == "checkbox" then "checkbox"
  else if type_ == "radio" then "radio"
  else if type_ == "range" then "slider"
  else if type_ == "search" then "searchbox"
  else "textbox"

/-- The implicit tag-to-role table of `getRole`. -/
def implicitRole (el : ElemInfo) : Option String :=
  if el.tagName == "A" then (if el.hasHref then some "link" else none)
  else if el.tagName == "BUTTON" then some "button"
  else if el.tagName == "INPUT" then
    some (inputRole (if el.inputType == "" then "text" else el.inputType))
  else if el.tagName == "SELECT" then
    some (if el.multiple then "listbox" else "combobox")
  else if el.tagName == "TEXTAREA" then some "textbox"
  else if el.tagName == "IMG" then some "img"
  else if el.tagName == "NAV" then some "navigation"
  else if el.tagName == "MAIN" then some "main"
  else if el.tagName == "HEADER" then some "banner"
  else if el.tagName == "FOOTER" then some "contentinfo"
  else if el.tagName == "ASIDE" then some "complementary"
  else if el.tagName == "SECTION" then
    (if el.ariaLabel.isSome || el.ariaLabelledby.isSome then some "region" else none)
  else if el.tagName == "FORM" then some "form"
  else if el.tagName == "TABLE" then some "table"
  else if el.tagName == "TH" then some "columnheader"
  else if el.tagName == "TD" then some "cell"
  else if el.tagName == "TR" then some "row"
  else if el.tagName == "UL" || el.tagName == "OL" then some "list"
  else if el.tagName == "LI" then some "listitem"
  else if el.tagName == "H1" || el.tagName == "H2" || el.tagName == "H3" ||
      el.tagName == "H4" || el.tagName == "H5" || el.tagName == "H6" then
    some "heading"
  else if el.tagName == "DIALOG" then some "dialog"
  else none

/-- Source `getRole(el)`: explicit `role` attribute (truthy) wins, else the
implicit table. -/
def getRole (el : ElemInfo) : Option String :=
  match el.roleAttr with
  | some r => if r == "" then implicitRole el else some r
  | none => implicitRole el

/-- Source `isHidden(el)`. -/
def isHidden (el : ElemInfo) : Bool :=
  el.hiddenAttr || el.ariaHiddenTrue || el.displayNone || el.visibilityHidden

/-- Source `shouldHaveRef(el, role)`. -/
def shouldHaveRef (el : ElemInfo) (role : Option String) : Bool :=
  INTERACTIVE_TAGS.contains el.tagName ||
    (match role with
     | some r => INTERACTIVE_ROLES.contains r
     | none => false) ||
    el.onclick || decide (el.tabIndex ≥ 0)

/-- State of the reference machinery: the script-local `refCounter` and the
page-global `window.__qaRefs` insertion-ordered table (`ref ↦ element`). -/
structure RefState where
  refCounter : Nat
  qaRefs : List (String × Nat)
  deriving DecidableEq

/-- Source `getRef(el)`: scan `Object.entries(window.__qaRefs)` for the element
(returning its existing ref), else mint `'e' + (++refCounter)` and store
it. -/
def getRef (elId : Nat) (s : RefState) : String × RefState :=
  match s.qaRefs.find? (fun entry => entry.2 == elId) with
  | some entry => (entry.1, s)
  | none =>
    let ref := "e" ++ toString (s.refCounter + 1)
    (ref, ⟨s.refCounter + 1, s.qaRefs ++ [(ref, elId)]⟩)

mutual

/-- The depth-first sequence of elements for which `buildSnapshot` calls
`getRef`: hidden elements are pruned with their subtrees; an element is
listed iff `shouldHaveRef el (getRole el)`. -/
def refTargets : DomElem → List Nat
  | .node info children =>
    if isHidden info then []
    else
      (if shouldHaveRef info (getRole info) then [info.id] else []) ++
        refTargetsList children

/-- Source `refTargets` over a child list, left to right. -/
def refTargetsList : List DomElem → List Nat
  | [] => []
  | c :: cs => refTargets c ++ refTargetsList cs

end

/-- Fold `getRef` over the visit sequence, collecting `element ↦ ref`
assignments — the effect of one `buildSnapshot` traversal on the
reference state. -/
def assignRefs : List Nat → RefState → List (Nat × String) × RefState
  | [], s => ([], s)
  | elId :: rest, s =>
    let res := getRef elId s
    let tail := assignRefs rest res.2
    ((elId, res.1) :: tail.1, tail.2)

/-- One `getAriaSnapshot` evaluation against a persisted `window.__qaRefs`
table: the local `refCounter` restarts at 0, the table persists. -/
def snapshotRefs (body : DomElem) (qaRefs : List (String × Nat)) :
    List (Nat × String) × RefState :=
  assignRefs (refTargets body) ⟨0, qaRefs⟩

/-- Source `selectByRef`: `window.__qaRefs?.[ref] || null`. -/
def selectByRef (qaRefs : List (String × Nat)) (ref : String) : Option Nat :=
  (qaRefs.find? (fun entry => entry.1 == ref)).map (fun entry => entry.2)

/-- Source `clickByRef(page, ref)`: click the resolved element, or throw
`Element with ref <ref> not found`. -/
def clickByRef (qaRefs : List (String × Nat)) (ref : String) : Except String Nat :=
  match selectByRef qaRefs ref with
  | some el => .ok el
  | none => .error ("Element with ref " ++ ref ++ " not found")

/-! ## Theorems -/

/-- Every error of the `JSON.parse` model renders to a non-empty message. -/
theorem jsonError_message_length_pos (e : JsonError) : 0 < e.message.length := by
  have hu : 0 < "Unexpected token ".length := by decide
  cases e <;> (try simp only [JsonError.message, String.length_append]) <;>
    first
      | decide
      | omega

/-- C1 (amended): for every input whose text is not valid JSON after the
code's fence-stripping (which deletes every backtick-backtick-backtick-jso(n)
occurrence globally and one trailing triple-backtick fence, but leaves a
leading bare triple-backtick fence intact), `parseResponse` returns —
without raising — exactly the fallback object with summary
"Failed to parse LLM response", empty bugs, null score, empty
recommendations, the original input verbatim under `raw_response`, and a
non-empty `parse_error` message. -/
theorem C1_parse_failure_returns_fallback (s : String) (e : JsonError)
    (h : jsonParse (stripResponse s) = .error e) :
    parseResponse s = parseFailureResult s e ∧ 0 < e.message.length := by
  refine ⟨?_, jsonError_message_length_pos e⟩
  unfold parseResponse
  rw [h]

/-- C1 witness: the non-JSON input `"not json"` concretely produces the
fallback object. -/
theorem C1_parse_failure_returns_fallback_witness :
    parseResponse "not json" = parseFailureResult "not json" JsonError.badLiteral ∧
      0 < (JsonError.badLiteral).message.length :=
  C1_parse_failure_returns_fallback "not json" JsonError.badLiteral rfl

/-- C1 counterexample: the claim says the stripping removes a
leading/trailing fenced-code-block wrapper.  On the fenced input
(triple-backtick, newline, braces, newline, triple-backtick) that
stripping (modelled by `stripSpecWrapper`) yields valid JSON, yet the
code's `parseResponse` — whose first regex never matches a bare leading
fence — returns the parse-failure fallback. -/
theorem C1_claimed_stripping_counterexample :
    stripSpecWrapper "```\n\x7b\x7d\n```" = "\x7b\x7d\n" ∧
    jsonParse (stripSpecWrapper "```\n\x7b\x7d\n```") = .ok (.obj []) ∧
    stripResponse "```\n\x7b\x7d\n```" = "```\n\x7b\x7d\n" ∧
    parseResponse "```\n\x7b\x7d\n```" =
      parseFailureResult "```\n\x7b\x7d\n```" (.unexpectedToken '`') :=
  ⟨rfl, rfl, rfl, rfl⟩

set_option maxRecDepth 16384 in
/-- C2 counterexample: one outstanding non-ignored request of resource
type `image` that never resolves, with the default
`{timeout: 30000, networkIdleTime: 500, nonCriticalTimeout: 3000}`.  The
claim says `waitForPageReady` reports `ready: true` once
`networkIdleTime` has elapsed past the `nonCriticalTimeout` grace; the
code instead exits its wait loop at 3500 ms but reports `ready: false`,
because readiness is computed from the full pending map, which still
contains the image request. -/
theorem C2_ready_true_counterexample :
    waitForPageReady [⟨"https://example.com/hero.png", "image", 0, none⟩]
      30000 500 3000 =
      ⟨false, ["https://example.com/hero.png"], 3500⟩ := by
  decide

set_option maxRecDepth 16384 in
/-- C2 (amended): with one outstanding `image` request and no others, the
wait loop stops blocking once the request is `nonCriticalTimeout` old and
returns after the `networkIdleTime` debounce (load time 3500 ms, well
before the outer timeout), but reports `ready: false` with the image URL
still listed in `pendingRequests`; an outstanding `script` request keeps
`ready: false` until the outer timeout (load time = timeout), and if it
resolves, the function reports `ready: true` shortly after; in all cases
a result record is returned rather than an exception being thrown. -/
theorem C2_readiness_classification :
    (waitForPageReady [⟨"https://example.com/hero.png", "image", 0, none⟩]
        30000 500 3000 =
      ⟨false, ["https://example.com/hero.png"], 3500⟩) ∧
    (waitForPageReady [⟨"https://example.com/app.js", "script", 0, none⟩]
        2000 500 3000 =
      ⟨false, ["https://example.com/app.js"], 2000⟩) ∧
    (waitForPageReady [⟨"https://example.com/app.js", "script", 0, some 1000⟩]
        2000 500 3000 =
      ⟨true, [], 1500⟩) := by
  refine ⟨by decide, by decide, by decide⟩

/-- C3: `shouldIgnoreRequest(url)` returns true exactly for unparsable
strings, `data:` URIs, strings longer than 2000 characters, and URLs
whose host contains a block-list entry; concretely it ignores the
google-analytics collect URL, keeps `https://api.myapp.com/v1/orders`,
ignores every over-2000-character string regardless of host, and ignores
`"not a url"`.  The function is total, so it never throws. -/
theorem C3_shouldIgnoreRequest_spec :
    (∀ url : String,
      shouldIgnoreRequest url = true ↔
        (parseURL url = none ∨
          ∃ p, parseURL url = some p ∧
            (p.protocol = "data:" ∨ url.length > 2000 ∨
              ∃ d ∈ IGNORED_DOMAINS, strContains p.hostname d = true))) ∧
    (∀ url : String, url.length > 2000 → shouldIgnoreRequest url = true) ∧
    shouldIgnoreRequest "https://www.google-analytics.com/collect" = true ∧
    shouldIgnoreRequest "https://api.myapp.com/v1/orders" = false ∧
    shouldIgnoreRequest "data:text/plain,hello" = true ∧
    shouldIgnoreRequest "not a url" = true := by
  refine ⟨?_, ?_, by decide, by decide, by decide, by decide⟩
  · intro url
    cases h : parseURL url with
    | none => simp [shouldIgnoreRequest, h]
    | some p =>
      simp only [shouldIgnoreRequest, h, Option.some.injEq, false_or,
        reduceCtorEq]
      by_cases hd : p.protocol = "data:"
      · simp [hd]
      · by_cases hl : url.length > 2000
        · simp [hd, hl]
        · simp [hd, hl, List.any_eq_true]
  · intro url hlen
    cases h : parseURL url with
    | none => simp [shouldIgnoreRequest, h]
    | some p =>
      simp only [shouldIgnoreRequest, h]
      by_cases hd : p.protocol = "data:"
      · simp [hd]
      · simp [hd, hlen]

/-- C3 witness: a 2001-character string is ignored by the length rule. -/
theorem C3_shouldIgnoreRequest_spec_witness :
    shouldIgnoreRequest (String.mk (List.replicate 2001 'a')) = true := by
  have h : (String.mk (List.replicate 2001 'a')).length = 2001 := by
    show (List.replicate 2001 'a').length = 2001
    rw [List.length_replicate]
  exact C3_shouldIgnoreRequest_spec.2.1 (String.mk (List.replicate 2001 'a'))
    (by omega)

/-- C4 counterexample: the claim counts 5 tokens over 3 characters for
the expected description "SQL injection via unsanitized query parameter",
including `sql` — but `sql` has exactly 3 characters and the filter keeps
only words *strictly* longer than 3, so the code extracts 4 tokens (the
threshold is still `ceil(0.4 × 4) = 2`). -/
theorem C4_token_count_counterexample :
    keywords "SQL injection via unsanitized query parameter" =
      ["injection", "unsanitized", "query", "parameter"] ∧
    (keywords "SQL injection via unsanitized query parameter").length = 4 ∧
    ¬ (keywords "SQL injection via unsanitized query parameter").length = 5 ∧
    "sql" ∉ keywords "SQL injection via unsanitized query parameter" ∧
    matchThreshold (keywords "SQL injection via unsanitized query parameter").length
      = 2 := by
  decide

/-- C4 (amended): a candidate issue matches an expected entry iff its
description fuzzy-matches (lowercased expected description split on
whitespace/comma/slash, words strictly longer than 3 characters kept;
hits counted as substrings of the lowercased candidate description;
threshold `ceil(0.4 × tokenCount)`) or its category and severity both
case-insensitively substring-contain the expected entry's (an absent
expected field matching vacuously); the expected description
"SQL injection via unsanitized query parameter" yields 4 such tokens
(`sql` has only 3 characters) and threshold `ceil(0.4 × 4) = 2`. -/
theorem C4_benchmark_matching :
    (∀ (issue : BenchIssue) (exp : ExpectedIssue),
      issueMatches issue exp = true ↔
        (matchDescription (effectiveDescription issue) exp.description = true ∨
          ((exp.category = "" ∨
              strContains (toLowerStr issue.category) (toLowerStr exp.category) = true) ∧
            (exp.severity = "" ∨
              strContains (toLowerStr issue.severity) (toLowerStr exp.severity) = true)))) ∧
    (∀ actual expected : String,
      matchDescription actual expected = true ↔
        matchThreshold (keywords expected).length ≤
          ((keywords expected).filter
            (fun kw => strContains (toLowerStr actual) kw)).length) ∧
    keywords "SQL injection via unsanitized query parameter" =
      ["injection", "unsanitized", "query", "parameter"] ∧
    matchThreshold 4 = 2 ∧
    matchDescription "Possible injection vulnerability in query handling"
      "SQL injection via unsanitized query parameter" = true ∧
    matchDescription "mentions injection only"
      "SQL injection via unsanitized query parameter" = false ∧
    issueMatches ⟨"mentions injection only", "", "security", "high"⟩
      ⟨"SQL injection via unsanitized query parameter", "security", "high"⟩ = true ∧
    issueMatches ⟨"mentions injection only", "", "logic", "high"⟩
      ⟨"SQL injection via unsanitized query parameter", "security", "high"⟩ = false := by
  refine ⟨?_, ?_, by decide, by decide, by decide, by decide, by decide, by decide⟩
  · intro issue exp
    simp [issueMatches, Bool.or_eq_true, Bool.and_eq_true, beq_iff_eq]
  · intro actual expected
    simp [matchDescription, ge_iff_le]

/-- Disjoint filters split the length of a filter by a disjunction. -/
theorem length_filter_orb {α : Type} (p q : α → Bool) (l : List α)
    (h : ∀ a, p a = true → q a = false) :
    (l.filter (fun a => p a || q a)).length =
      (l.filter p).length + (l.filter q).length := by
  induction l with
  | nil => rfl
  | cons a t ih =>
    cases hp : p a with
    | true =>
      have hq := h a hp
      simp [List.filter_cons, hp, hq, ih]
      omega
    | false =>
      cases hq : q a
      all_goals simp [List.filter_cons, hp, hq, ih]
      all_goals omega

/-- C5 (amended): `compareDirectories` assigns each PNG filename of the
union exactly the claimed status — `new` when absent from baseline,
`missing` when absent from current, `failed` on dimension mismatch (with
no pixel comparison: the result is independent of the diff algorithm) or
when the rounded `diffPercent` exceeds `failThreshold`, `warning` for a
positive in-threshold `diffPixels`, `passed` for zero `diffPixels` (under
a non-negative threshold) — and the summary counts warnings toward
`passed`, with `passRate` equal to `100 × passed / total` rounded to one
decimal place (`toFixed(1)`), and 100 when there are no files. -/
theorem C5_compareDirectories_spec :
    (∀ (alg : PixelMatchAlg) (baseline current : ScreenshotDir) (th : ℚ) (f : String),
      lookupImage baseline f = none →
      classifyFile alg baseline current th f = ⟨f, "new", none, none⟩) ∧
    (∀ (alg : PixelMatchAlg) (baseline current : ScreenshotDir) (th : ℚ)
        (f : String) (b : PngImage),
      lookupImage baseline f = some b → lookupImage current f = none →
      classifyFile alg baseline current th f = ⟨f, "missing", none, none⟩) ∧
    (∀ (alg alg2 : PixelMatchAlg) (baseline current : ScreenshotDir) (th : ℚ)
        (f : String) (b c : PngImage),
      lookupImage baseline f = some b → lookupImage current f = some c →
      (b.width ≠ c.width ∨ b.height ≠ c.height) →
      classifyFile alg baseline current th f = ⟨f, "failed", none, none⟩ ∧
      classifyFile alg baseline current th f =
        classifyFile alg2 baseline current th f) ∧
    (∀ (alg : PixelMatchAlg) (baseline current : ScreenshotDir) (th : ℚ)
        (f : String) (b c : PngImage),
      lookupImage baseline f = some b → lookupImage current f = some c →
      b.width = c.width → b.height = c.height →
      ((roundTo 2 ((alg b c : ℚ) / ((b.width * b.height : Nat) : ℚ) * 100) > th →
        classifyFile alg baseline current th f =
          ⟨f, "failed", some (alg b c : Int),
            some (roundTo 2 ((alg b c : ℚ) / ((b.width * b.height : Nat) : ℚ) * 100))⟩) ∧
      (roundTo 2 ((alg b c : ℚ) / ((b.width * b.height : Nat) : ℚ) * 100) ≤ th →
        0 < alg b c →
        classifyFile alg baseline current th f =
          ⟨f, "warning", some (alg b c : Int),
            some (roundTo 2 ((alg b c : ℚ) / ((b.width * b.height : Nat) : ℚ) * 100))⟩) ∧
      (alg b c = 0 → 0 ≤ th →
        classifyFile alg baseline current th f = ⟨f, "passed", none, some 0⟩))) ∧
    (∀ (alg : PixelMatchAlg) (baseline current : ScreenshotDir) (th : ℚ),
      (compareDirectories alg baseline current th).summary.total =
        (pngUnion baseline current).length ∧
      (compareDirectories alg baseline current th).summary.passed =
        ((compareDirectories alg baseline current th).results.filter
            (fun x => x.status == "passed")).length +
          ((compareDirectories alg baseline current th).results.filter
            (fun x => x.status == "warning")).length ∧
      (compareDirectories alg baseline current th).summary.passRate =
        (if 0 < (pngUnion baseline current).length then
          roundTo 1
            (((compareDirectories alg baseline current th).summary.passed : ℚ) /
              ((pngUnion baseline current).length : ℚ) * 100)
        else 100)) := by
  refine ⟨?_, ?_, ?_, ?_, ?_⟩
  · intro alg baseline current th f h
    simp [classifyFile, h]
  · intro alg baseline current th f b hb hc
    simp [classifyFile, hb, hc]
  · intro alg alg2 baseline current th f b c hb hc hdim
    have hmm : (b.width != c.width || b.height != c.height) = true := by
      rcases hdim with h | h <;> simp [h]
    constructor <;> simp [classifyFile, hb, hc, compareImages, hmm]
  · intro alg baseline current th f b c hb hc hw hh
    have hmm : (b.width != c.width || b.height != c.height) = false := by
      simp [hw, hh]
    refine ⟨?_, ?_, ?_⟩
    · intro hgt
      simp only [Nat.cast_mul] at hgt
      simp [classifyFile, hb, hc, compareImages, hmm, hgt]
    · intro hle hpos
      simp only [Nat.cast_mul] at hle
      simp [classifyFile, hb, hc, compareImages, hmm, not_lt.mpr hle,
        Int.natCast_pos.mpr hpos]
    · intro hzero hth
      have hhalf : ⌊(1 / 2 : ℚ)⌋ = 0 := by norm_num [Int.floor_eq_iff]
      have harg : (0 : ℚ) * 10 ^ (2 : ℕ) + 1 / 2 = 1 / 2 := by norm_num
      have hr0 : roundTo 2 (0 : ℚ) = 0 := by
        simp only [roundTo, harg, hhalf]
        norm_num
      simp [classifyFile, hb, hc, compareImages, hmm, hzero, hr0, not_lt.mpr hth]
  · intro alg baseline current th
    refine ⟨rfl, ?_, ?_⟩
    · have hsplit := length_filter_orb
        (fun x : FileCompareResult => x.status == "passed")
        (fun x : FileCompareResult => x.status == "warning")
        ((pngUnion baseline current).map (classifyFile alg baseline current th))
        (by
          intro a ha
          simp [beq_iff_eq] at ha ⊢
          rw [ha]
          decide)
      simpa [compareDirectories] using hsplit
    · by_cases hlen : 0 < (pngUnion baseline current).length
      · simp [compareDirectories, hlen, Nat.pos_iff_ne_zero.mp hlen]
      · simp [compareDirectories, hlen, Nat.eq_zero_of_not_pos (by exact hlen)]

/-- C5 witness: concrete instantiations of the per-file conjuncts — a
dimension mismatch is `failed` without a pixel comparison, and an empty
pair of directories has `passRate` 100. -/
theorem C5_compareDirectories_spec_witness :
    classifyFile samplePixelAlg [("x.png", ⟨2, 2, [0]⟩)] [("x.png", ⟨3, 2, [0]⟩)]
        (1 / 2) "x.png" =
      ⟨"x.png", "failed", none, none⟩ ∧
    (compareDirectories samplePixelAlg [] [] (1 / 2)).summary.passRate = 100 := by
  constructor
  · exact (C5_compareDirectories_spec.2.2.1 samplePixelAlg samplePixelAlg
      [("x.png", ⟨2, 2, [0]⟩)] [("x.png", ⟨3, 2, [0]⟩)] (1 / 2) "x.png"
      ⟨2, 2, [0]⟩ ⟨3, 2, [0]⟩ rfl rfl (Or.inl (by decide))).1
  · have h := (C5_compareDirectories_spec.2.2.2.2 samplePixelAlg [] [] (1 / 2)).2.2
    simpa using h

/-- C5 counterexample: three union files of which exactly one passes give
`passRate = 33.3` (the `toFixed(1)` rounding of 100 × 1 / 3), which is not
equal to `100 × passed / total = 100/3` as the claim states. -/
theorem C5_passRate_exact_counterexample :
    (compareDirectories samplePixelAlg
        [("a.png", ⟨100, 50, [1, 2, 3]⟩), ("b.png", ⟨100, 50, [1, 2, 3]⟩)]
        [("a.png", ⟨100, 50, [1, 2, 3]⟩), ("c.png", ⟨100, 50, [1, 2, 3]⟩)]
        (1 / 2)).summary =
      ⟨3, 1, 0, 1, 1, 333 / 10⟩ ∧
    ¬ ((333 / 10 : ℚ) = 100 * 1 / 3) := by
  have hd : samplePixelAlg ⟨100, 50, [1, 2, 3]⟩ ⟨100, 50, [1, 2, 3]⟩ = 0 := by decide
  have hhalf : ⌊(1 / 2 : ℚ)⌋ = 0 := by norm_num [Int.floor_eq_iff]
  have harg : (0 : ℚ) * 10 ^ (2 : ℕ) + 1 / 2 = 1 / 2 := by norm_num
  have hr0 : roundTo 2 (0 : ℚ) = 0 := by
    simp only [roundTo, harg, hhalf]
    norm_num
  have hA : classifyFile samplePixelAlg
      [("a.png", ⟨100, 50, [1, 2, 3]⟩), ("b.png", ⟨100, 50, [1, 2, 3]⟩)]
      [("a.png", ⟨100, 50, [1, 2, 3]⟩), ("c.png", ⟨100, 50, [1, 2, 3]⟩)]
      (1 / 2) "a.png" = ⟨"a.png", "passed", none, some 0⟩ := by
    have hlb : lookupImage
        [("a.png", (⟨100, 50, [1, 2, 3]⟩ : PngImage)), ("b.png", ⟨100, 50, [1, 2, 3]⟩)]
        "a.png" = some ⟨100, 50, [1, 2, 3]⟩ := by decide
    have hlc : lookupImage
        [("a.png", (⟨100, 50, [1, 2, 3]⟩ : PngImage)), ("c.png", ⟨100, 50, [1, 2, 3]⟩)]
        "a.png" = some ⟨100, 50, [1, 2, 3]⟩ := by decide
    simp [classifyFile, hlb, hlc, compareImages, hd, hr0]
    try norm_num
  have hB : classifyFile samplePixelAlg
      [("a.png", ⟨100, 50, [1, 2, 3]⟩), ("b.png", ⟨100, 50, [1, 2, 3]⟩)]
      [("a.png", ⟨100, 50, [1, 2, 3]⟩), ("c.png", ⟨100, 50, [1, 2, 3]⟩)]
      (1 / 2) "b.png" = ⟨"b.png", "missing", none, none⟩ := by decide
  have hC : classifyFile samplePixelAlg
      [("a.png", ⟨100, 50, [1, 2, 3]⟩), ("b.png", ⟨100, 50, [1, 2, 3]⟩)]
      [("a.png", ⟨100, 50, [1, 2, 3]⟩), ("c.png", ⟨100, 50, [1, 2, 3]⟩)]
      (1 / 2) "c.png" = ⟨"c.png", "new", none, none⟩ := by decide
  have hfiles : pngUnion
      [("a.png", (⟨100, 50, [1, 2, 3]⟩ : PngImage)), ("b.png", ⟨100, 50, [1, 2, 3]⟩)]
      [("a.png", (⟨100, 50, [1, 2, 3]⟩ : PngImage)), ("c.png", ⟨100, 50, [1, 2, 3]⟩)] =
      ["a.png", "b.png", "c.png"] := by decide
  have hrate : roundTo 1 ((100 : ℚ) / 3) = 333 / 10 := by
    have h333 : ⌊((100 : ℚ) / 3 * 10 ^ (1 : ℕ) + 1 / 2)⌋ = 333 := by
      rw [Int.floor_eq_iff]
      constructor
      · norm_num
      · norm_num
    simp only [roundTo]
    rw [h333]
    norm_num
  constructor
  · simp only [compareDirectories, hfiles, List.map_cons, List.map_nil, hA, hB, hC,
      DirSummary.mk.injEq]
    have hfilters : (List.filter
        (fun r : FileCompareResult => r.status == "passed" || r.status == "warning")
        [⟨"b.png", "missing", none, none⟩, ⟨"c.png", "new", none, none⟩]).length = 0 := by
      decide
    refine ⟨by decide, by decide, by decide, by decide, by decide, ?_⟩
    norm_num [hfilters]
    exact hrate
  · norm_num

/-- C6 counterexample: the disk-oriented `capturePage` looks viewport
names up case-sensitively, so `"Desktop"` is skipped (zero screenshots)
rather than resolving to 1920×1080; the library `capturePageData`
lowercases and does resolve it. -/
theorem C6_case_sensitivity_counterexample :
    capturePageScreenshots ["Desktop"] = [] ∧
    capturePageDataScreenshots ["Desktop"] =
      [⟨"desktop-1920x1080", "desktop", 1920, 1080⟩] := by
  constructor
  · decide
  · decide

/-- C6 (amended): the library capture (`capturePageData`) resolves
viewport names case-insensitively — any spelling lowercasing to
`desktop`/`tablet`/`mobile` yields exactly 1920×1080 / 768×1024 / 375×667
— while the disk capture (`capturePage`) resolves only the exact
lowercase names; in both, any other string is skipped with a warning,
contributes zero screenshots, and never raises (the resolution functions
are total). -/
theorem C6_viewport_resolution :
    (∀ name : String, toLowerStr name = "desktop" →
      capturePageDataScreenshots [name] =
        [⟨"desktop-1920x1080", "desktop", 1920, 1080⟩]) ∧
    (∀ name : String, toLowerStr name = "tablet" →
      capturePageDataScreenshots [name] = [⟨"tablet-768x1024", "tablet", 768, 1024⟩]) ∧
    (∀ name : String, toLowerStr name = "mobile" →
      capturePageDataScreenshots [name] = [⟨"mobile-375x667", "mobile", 375, 667⟩]) ∧
    (∀ name : String, toLowerStr name ≠ "desktop" → toLowerStr name ≠ "tablet" →
      toLowerStr name ≠ "mobile" → capturePageDataScreenshots [name] = []) ∧
    (capturePageScreenshots ["desktop"] = [⟨"desktop", 1920, 1080⟩] ∧
      capturePageScreenshots ["tablet"] = [⟨"tablet", 768, 1024⟩] ∧
      capturePageScreenshots ["mobile"] = [⟨"mobile", 375, 667⟩]) ∧
    (∀ name : String, name ≠ "desktop" → name ≠ "tablet" → name ≠ "mobile" →
      capturePageScreenshots [name] = []) ∧
    (∀ (pre post : List String) (name : String),
      toLowerStr name ≠ "desktop" → toLowerStr name ≠ "tablet" →
      toLowerStr name ≠ "mobile" →
      capturePageDataScreenshots (pre ++ name :: post) =
        capturePageDataScreenshots pre ++ capturePageDataScreenshots post) ∧
    (∀ (pre post : List String) (name : String),
      name ≠ "desktop" → name ≠ "tablet" → name ≠ "mobile" →
      capturePageScreenshots (pre ++ name :: post) =
        capturePageScreenshots pre ++ capturePageScreenshots post) := by
  refine ⟨?_, ?_, ?_, ?_, ⟨by decide, by decide, by decide⟩, ?_, ?_, ?_⟩
  · intro name h
    simp [capturePageDataScreenshots, VIEWPORT_CONFIGS, h]
    decide
  · intro name h
    simp [capturePageDataScreenshots, VIEWPORT_CONFIGS, h]
    decide
  · intro name h
    simp [capturePageDataScreenshots, VIEWPORT_CONFIGS, h]
    decide
  · intro name h1 h2 h3
    have e1 : (("mobile" : String) == toLowerStr name) = false :=
      beq_eq_false_iff_ne.mpr (Ne.symm h3)
    have e2 : (("tablet" : String) == toLowerStr name) = false :=
      beq_eq_false_iff_ne.mpr (Ne.symm h2)
    have e3 : (("desktop" : String) == toLowerStr name) = false :=
      beq_eq_false_iff_ne.mpr (Ne.symm h1)
    simp [capturePageDataScreenshots, VIEWPORT_CONFIGS, List.find?, e1, e2, e3]
  · intro name h1 h2 h3
    have e1 : (("desktop" : String) == name) = false :=
      beq_eq_false_iff_ne.mpr (Ne.symm h1)
    have e2 : (("tablet" : String) == name) = false :=
      beq_eq_false_iff_ne.mpr (Ne.symm h2)
    have e3 : (("mobile" : String) == name) = false :=
      beq_eq_false_iff_ne.mpr (Ne.symm h3)
    simp [capturePageScreenshots, VIEWPORTS, List.find?, e1, e2, e3]
  · intro pre post name h1 h2 h3
    have e1 : (("mobile" : String) == toLowerStr name) = false :=
      beq_eq_false_iff_ne.mpr (Ne.symm h3)
    have e2 : (("tablet" : String) == toLowerStr name) = false :=
      beq_eq_false_iff_ne.mpr (Ne.symm h2)
    have e3 : (("desktop" : String) == toLowerStr name) = false :=
      beq_eq_false_iff_ne.mpr (Ne.symm h1)
    simp [capturePageDataScreenshots, List.filterMap_append, List.filterMap_cons,
      VIEWPORT_CONFIGS, List.find?, e1, e2, e3]
  · intro pre post name h1 h2 h3
    have e1 : (("desktop" : String) == name) = false :=
      beq_eq_false_iff_ne.mpr (Ne.symm h1)
    have e2 : (("tablet" : String) == name) = false :=
      beq_eq_false_iff_ne.mpr (Ne.symm h2)
    have e3 : (("mobile" : String) == name) = false :=
      beq_eq_false_iff_ne.mpr (Ne.symm h3)
    simp [capturePageScreenshots, List.filterMap_append, List.filterMap_cons,
      VIEWPORTS, List.find?, e1, e2, e3]

/-- C6 witness: mixed-case `"DeskTop"` resolves in the library capture but
is skipped by the disk capture; an unknown name is skipped by both, also
in the middle of a list. -/
theorem C6_viewport_resolution_witness :
    capturePageDataScreenshots ["DeskTop"] =
      [⟨"desktop-1920x1080", "desktop", 1920, 1080⟩] ∧
    capturePageDataScreenshots ["gigantic"] = [] ∧
    capturePageScreenshots ["DeskTop"] = [] ∧
    capturePageScreenshots (["desktop"] ++ "DeskTop" :: ["mobile"]) =
      capturePageScreenshots ["desktop"] ++ capturePageScreenshots ["mobile"] :=
  ⟨C6_viewport_resolution.1 "DeskTop" (by decide),
    C6_viewport_resolution.2.2.2.1 "gigantic" (by decide) (by decide) (by decide),
    C6_viewport_resolution.2.2.2.2.2.1 "DeskTop" (by decide) (by decide) (by decide),
    C6_viewport_resolution.2.2.2.2.2.2.2 ["desktop"] ["mobile"] "DeskTop"
      (by decide) (by decide) (by decide)⟩

/-- C7 counterexample: with only the plain-name variable
`ANTHROPIC_API_KEY` set, the live `src/providers/index.js` auto-detection
finds nothing (it reads only the `INPUT_`-prefixed names), and
`getProvider` throws its configuration error — the claim says the plain
variant is read and Anthropic is selected. -/
theorem C7_plain_env_counterexample :
    ProvidersIndex.detectProvider [("ANTHROPIC_API_KEY", "sk-test")] = none ∧
    ProvidersIndex.getProvider [("ANTHROPIC_API_KEY", "sk-test")] =
      .error ("No API key provided. Set one of: INPUT_ANTHROPIC_API_KEY, " ++
        "INPUT_OPENAI_API_KEY, INPUT_CODEX_API_KEY, INPUT_GEMINI_API_KEY, " ++
        "or INPUT_PROVIDER with INPUT_API_KEY") := by
  constructor
  · decide
  · rfl

/-- C7 (amended): the live `detectProvider` reads only the
`INPUT_`-prefixed variable names with first-match-wins precedence — the
explicit `INPUT_PROVIDER` + `INPUT_API_KEY` pair first, then the
provider-specific keys in the fixed order Anthropic, OpenAI, Codex
(forcing model `codex-mini-latest`), Gemini, then `INPUT_PROVIDER=ollama`
needing no key with defaults `http://localhost:11434` / `llava` — and on
no match `getProvider` fails with an error naming the recognized
`INPUT_` variables.  The historical copy bundled with the OpenAI adapter
additionally reads each plain name before its `INPUT_` form. -/
theorem C7_provider_detection :
    (∀ (env : Env) (p k : String),
      envTruthy env "INPUT_PROVIDER" = some p →
      envTruthy env "INPUT_API_KEY" = some k →
      ProvidersIndex.detectProvider env = some ⟨toLowerStr p, some k, ⟨none, none⟩⟩) ∧
    ProvidersIndex.detectProvider
      [("ANTHROPIC_API_KEY", "k"), ("OPENAI_API_KEY", "k"), ("CODEX_API_KEY", "k"),
        ("GEMINI_API_KEY", "k"), ("PROVIDER", "anthropic"), ("API_KEY", "k")] = none ∧
    ProvidersIndex.detectProvider
      [("INPUT_ANTHROPIC_API_KEY", "a"), ("INPUT_OPENAI_API_KEY", "b"),
        ("INPUT_CODEX_API_KEY", "c"), ("INPUT_GEMINI_API_KEY", "d")] =
      some ⟨"anthropic", some "a", ⟨none, none⟩⟩ ∧
    ProvidersIndex.detectProvider
      [("INPUT_OPENAI_API_KEY", "b"), ("INPUT_CODEX_API_KEY", "c"),
        ("INPUT_GEMINI_API_KEY", "d")] =
      some ⟨"openai", some "b", ⟨none, none⟩⟩ ∧
    ProvidersIndex.detectProvider
      [("INPUT_CODEX_API_KEY", "c"), ("INPUT_GEMINI_API_KEY", "d")] =
      some ⟨"codex", some "c", ⟨some "codex-mini-latest", none⟩⟩ ∧
    ProvidersIndex.detectProvider [("INPUT_GEMINI_API_KEY", "d")] =
      some ⟨"gemini", some "d", ⟨none, none⟩⟩ ∧
    ProvidersIndex.detectProvider
      [("INPUT_PROVIDER", "Gemini"), ("INPUT_API_KEY", "g"),
        ("INPUT_ANTHROPIC_API_KEY", "a")] =
      some ⟨"gemini", some "g", ⟨none, none⟩⟩ ∧
    ProvidersIndex.detectProvider [("INPUT_PROVIDER", "ollama")] =
      some ⟨"ollama", none, ⟨some "llava", some "http://localhost:11434"⟩⟩ ∧
    ProvidersIndex.detectProvider
      [("INPUT_PROVIDER", "ollama"), ("INPUT_OLLAMA_BASE_URL", "http://gpu:9000"),
        ("INPUT_OLLAMA_MODEL", "llava:13b")] =
      some ⟨"ollama", none, ⟨some "llava:13b", some "http://gpu:9000"⟩⟩ ∧
    (∀ env : Env, ProvidersIndex.detectProvider env = none →
      ProvidersIndex.getProvider env =
        .error ("No API key provided. Set one of: INPUT_ANTHROPIC_API_KEY, " ++
          "INPUT_OPENAI_API_KEY, INPUT_CODEX_API_KEY, INPUT_GEMINI_API_KEY, " ++
          "or INPUT_PROVIDER with INPUT_API_KEY")) ∧
    ProvidersCompat.detectProvider [("ANTHROPIC_API_KEY", "k")] =
      some ⟨"anthropic", some "k", ⟨none, none⟩⟩ ∧
    ProvidersCompat.detectProvider
      [("OPENAI_API_KEY", "a"), ("INPUT_OPENAI_API_KEY", "b")] =
      some ⟨"openai", some "a", ⟨none, none⟩⟩ := by
  refine ⟨?_, by decide, by decide, by decide, by decide, by decide, by decide,
    by decide, by decide, ?_, by decide, by decide⟩
  · intro env p k h1 h2
    simp [ProvidersIndex.detectProvider, h1, h2]
  · intro env h
    simp [ProvidersIndex.getProvider, h]

/-- C7 witness: the explicit pair branch and the no-match error branch at
concrete environments. -/
theorem C7_provider_detection_witness :
    ProvidersIndex.detectProvider
      [("INPUT_PROVIDER", "Anthropic"), ("INPUT_API_KEY", "sk")] =
      some ⟨toLowerStr "Anthropic", some "sk", ⟨none, none⟩⟩ ∧
    ProvidersIndex.getProvider [] =
      .error ("No API key provided. Set one of: INPUT_ANTHROPIC_API_KEY, " ++
        "INPUT_OPENAI_API_KEY, INPUT_CODEX_API_KEY, INPUT_GEMINI_API_KEY, " ++
        "or INPUT_PROVIDER with INPUT_API_KEY") :=
  ⟨C7_provider_detection.1 [("INPUT_PROVIDER", "Anthropic"), ("INPUT_API_KEY", "sk")]
      "Anthropic" "sk" (by decide) (by decide),
    C7_provider_detection.2.2.2.2.2.2.2.2.2.1 [] (by decide)⟩

/-- C8: no method named `generateTests` exists on `BaseProvider` or on any
adapter in the `PROVIDERS` map, so the provider-call step that both
generation modes execute (`await provider.generateTests(prompt)`) fails
with a `TypeError` for every provider and every prompt, before any test
file is produced. -/
theorem C8_generateTests_missing :
    baseProviderMethods.contains "generateTests" = false ∧
    (∀ entry ∈ PROVIDER_CLASSES, hasMethod entry.2 "generateTests" = false) ∧
    (∀ entry ∈ PROVIDER_CLASSES, ∀ rawModelText : String,
      generationProviderStep entry.2 rawModelText =
        .error "TypeError: provider.generateTests is not a function") := by
  refine ⟨by decide, ?_, ?_⟩
  · intro entry h
    fin_cases h <;> decide
  · intro entry h raw
    fin_cases h <;> rfl

/-- C8 witness: the Anthropic adapter concretely lacks `generateTests`
and its generation-run provider step errors. -/
theorem C8_generateTests_missing_witness :
    hasMethod anthropicOwnMethods "generateTests" = false ∧
    generationProviderStep anthropicOwnMethods "raw model text" =
      .error "TypeError: provider.generateTests is not a function" :=
  ⟨C8_generateTests_missing.2.1 ("anthropic", anthropicOwnMethods) (by decide),
    C8_generateTests_missing.2.2 ("anthropic", anthropicOwnMethods) (by decide)
      "raw model text"⟩

/-- Source `getRef` only appends to the `window.__qaRefs` table. -/
theorem getRef_qaRefs_mono (elId : Nat) (s : RefState) :
    ∃ d, ((getRef elId s).2).qaRefs = s.qaRefs ++ d := by
  unfold getRef
  cases hf : s.qaRefs.find? (fun entry => entry.2 == elId) with
  | none => exact ⟨_, rfl⟩
  | some entry => exact ⟨[], by simp⟩

/-- Source `assignRefs` only appends to the `window.__qaRefs` table. -/
theorem assignRefs_qaRefs_mono (ids : List Nat) :
    ∀ s : RefState, ∃ d, ((assignRefs ids s).2).qaRefs = s.qaRefs ++ d := by
  induction ids with
  | nil => intro s; exact ⟨[], by simp [assignRefs]⟩
  | cons elId rest ih =>
    intro s
    obtain ⟨d1, h1⟩ := getRef_qaRefs_mono elId s
    obtain ⟨d2, h2⟩ := ih (getRef elId s).2
    refine ⟨d1 ++ d2, ?_⟩
    simp only [assignRefs]
    rw [h2, h1, List.append_assoc]

/-- Re-running `getRef` against any extension of the table it produced
returns the same reference and leaves the table unchanged. -/
theorem getRef_stable (elId : Nat) (s : RefState) (c : Nat)
    (ext : List (String × Nat)) :
    getRef elId ⟨c, ((getRef elId s).2).qaRefs ++ ext⟩ =
      ((getRef elId s).1, ⟨c, ((getRef elId s).2).qaRefs ++ ext⟩) := by
  cases hf : s.qaRefs.find? (fun entry => entry.2 == elId) with
  | some entry =>
    simp [getRef, hf, List.find?_append]
  | none =>
    simp [getRef, hf, List.find?_append]

/-- Re-running a whole assignment pass against any extension of the table
it produced reproduces the same element-to-reference assignment and
leaves the table unchanged. -/
theorem assignRefs_stable (ids : List Nat) :
    ∀ (s : RefState) (c : Nat) (ext : List (String × Nat)),
    assignRefs ids ⟨c, ((assignRefs ids s).2).qaRefs ++ ext⟩ =
      ((assignRefs ids s).1, ⟨c, ((assignRefs ids s).2).qaRefs ++ ext⟩) := by
  induction ids with
  | nil => intro s c ext; simp [assignRefs]
  | cons elId rest ih =>
    intro s c ext
    obtain ⟨d2, h2⟩ := assignRefs_qaRefs_mono rest (getRef elId s).2
    have hg := getRef_stable elId s c (d2 ++ ext)
    have hr := ih (getRef elId s).2 c ext
    simp only [assignRefs] at hr ⊢
    rw [h2, List.append_assoc, hg]
    rw [← List.append_assoc, ← h2, hr]

/-- C9: requesting the ARIA snapshot twice without DOM mutation assigns
the identical reference token to the identical element both times (the
second pass finds every element in the persisted page-lifetime
`window.__qaRefs` table, which is keyed by element identity and left
unchanged), and `clickByRef` on a token with no table entry fails with
the `Element with ref <token> not found` error naming that token rather
than silently doing nothing. -/
theorem C9_aria_reference_stability :
    (∀ (body : DomElem) (table : List (String × Nat)),
      snapshotRefs body ((snapshotRefs body table).2.qaRefs) =
        ((snapshotRefs body table).1, ⟨0, (snapshotRefs body table).2.qaRefs⟩)) ∧
    (∀ (qaRefs : List (String × Nat)) (ref : String),
      selectByRef qaRefs ref = none →
      clickByRef qaRefs ref = .error ("Element with ref " ++ ref ++ " not found")) := by
  constructor
  · intro body table
    have h := assignRefs_stable (refTargets body) ⟨0, table⟩ 0 []
    simpa [snapshotRefs] using h
  · intro qaRefs ref h
    simp [clickByRef, h]

/-- C9 witness: clicking a never-assigned token on a fresh page fails
with the NotFound-style error naming the token. -/
theorem C9_aria_reference_stability_witness :
    clickByRef [] "e9" = .error ("Element with ref " ++ "e9" ++ " not found") :=
  C9_aria_reference_stability.2 [] "e9" rfl

/-- C10: for a case with an empty `expectedIssues` list, `scoreResult`
reports `detected: true` whenever the response has an issues array — even
an empty one (`every` over an empty list is vacuously true) — with
`falsePositives` equal to the total number of reported issues; a response
without an issues array yields `detected: false` with zero false
positives. -/
theorem C10_empty_expected_scoring :
    (∀ issues : List BenchIssue,
      scoreResult (some ⟨some issues⟩) [] = ⟨true, issues.length⟩) ∧
    scoreResult (some ⟨none⟩) [] = ⟨false, 0⟩ ∧
    scoreResult none [] = ⟨false, 0⟩ := by
  refine ⟨?_, rfl, rfl⟩
  intro issues
  simp [scoreResult]

end Qaie
